import Mathlib

/-!
# Verification of the Abies CI result-normalization and regression/failure scripts

Shallow embedding of the decision logic of four scripts:

* `scripts/convert-e2e-results.py` — converts js-framework-benchmark result
  documents to the github-action-benchmark format (`parse_result_file`).
* `scripts/compare-benchmark.py` — parses the same documents with
  `statistics.median`/`mean`/`stdev` and compares medians against a baseline
  map with a delta-percent threshold (`parse_result_file`, `compare_results`).
* `scripts/compare-benchmarks.py` — compares two metric maps with a
  ratio-percent threshold (`compare_metrics`).
* `scripts/analyze_e2e_results.py` — classifies test failures by regex
  patterns and derives an exit code (`TestResult._categorize_failure`, `main`).

Numeric values are modelled as rationals (`ℚ`).  Python exceptions that the
scripts do not catch are modelled with `Except`; a per-file parse that is
skipped with a warning returns `none`.
-/

namespace Abies

/-! ## Sample statistics (`statistics` module and `sorted(xs)[n // 2]`) -/

/-- Python `sorted` over rationals: the sorted permutation of the list. -/
def sortedQ (l : List ℚ) : List ℚ := l.insertionSort (· ≤ ·)

/-- `statistics.median`: middle element of the sorted list for odd length,
average of the two middle elements for even length.  (Python raises
`StatisticsError` on the empty list; every embedded call site either guards
for emptiness or maps the empty case to an explicit error.) -/
def medianInterp (l : List ℚ) : ℚ :=
  let s := sortedQ l
  let n := s.length
  if n % 2 = 1 then s.getD (n / 2) 0
  else (s.getD (n / 2 - 1) 0 + s.getD (n / 2) 0) / 2

/-- `sorted(values)[len(values) // 2]` from `convert-e2e-results.py`: the
lower-middle element of the sorted list.  (Call sites guard non-emptiness.) -/
def medianLower (l : List ℚ) : ℚ := (sortedQ l).getD (l.length / 2) 0

/-- `statistics.mean` / `sum(values) / len(values)`.  (Call sites guard
non-emptiness.) -/
def meanQ (l : List ℚ) : ℚ := l.sum / (l.length : ℚ)

/-- Sample variance (divide by `N − 1`), the square of `statistics.stdev`.
The scripts only ever branch on `len(values) > 1` before calling
`statistics.stdev`; no claim inspects the numeric spread of more than one
sample, so the embedding carries the variance as the spread measure (the
guarded `0` cases and source-supplied values are exact). -/
def varQ (l : List ℚ) : ℚ :=
  (l.map (fun x => (x - meanQ l) * (x - meanQ l))).sum / ((l.length : ℚ) - 1)

/-! ## The JSON document shapes the parsers inspect

Both benchmark parsers look only at `data["values"]`, which is either a flat
array of numbers (legacy format) or an object keyed by `"total"` /
`"DEFAULT"` whose entry is either a stats object (optional precomputed
`median`/`mean`/`stddev` plus a raw `values` array) or again a flat array. -/

/-- A nested stats object: the optional fields the scripts read with
`total_data.get(...)`. -/
structure StatsObj where
  values : Option (List ℚ)
  median : Option ℚ
  mean : Option ℚ
  stddev : Option ℚ
deriving Repr, DecidableEq

/-- The entry found under the `"total"` / `"DEFAULT"` key: a dict
(stats object), a list, or any other JSON value (the scripts then use `[]`
as the sample list). -/
inductive TotalData where
  | obj : StatsObj → TotalData
  | arr : List ℚ → TotalData
  | other : TotalData
deriving Repr, DecidableEq

/-- The value of `data["values"]`: a dict — modelled by its optional
`"total"` entry, optional `"DEFAULT"` entry and whether it has any other
key (which decides Python truthiness) — or a flat array. -/
inductive ValuesObj where
  | dict : Option TotalData → Option TotalData → Bool → ValuesObj
  | arr : List ℚ → ValuesObj
deriving Repr, DecidableEq

/-- One parsed result document, as far as the parsers inspect it: either it
has no `"values"` field, or it has one. -/
inductive Doc where
  | noValues : Doc
  | withValues : ValuesObj → Doc
deriving Repr, DecidableEq

/-- Python truthiness of `values_obj` (`if not values_obj: return None` in
`convert-e2e-results.py`): a dict is falsy iff empty, a list iff empty. -/
def valuesObjFalsy : ValuesObj → Bool
  | .dict t d o => t.isNone && d.isNone && !o
  | .arr vs => vs.isEmpty

/-- Characters after the first `_`, if any. -/
def afterUnderscore : List Char → Option (List Char)
  | [] => none
  | c :: cs => if c = '_' then some cs else afterUnderscore cs

/-- Benchmark-name derivation, shared by both parsers:
`stem.split("_", 1)[1] if "_" in stem else stem` (equivalently, joining
`stem.split("_")[1:]` back with `"_"`): everything after the first
underscore, or the whole stem when there is none. -/
def benchName (stem : String) : String :=
  match afterUnderscore stem.data with
  | some rest => String.mk rest
  | none => stem

/-! ## `compare-benchmark.py` — `parse_result_file` (delta-percent script) -/

/-- `BenchmarkResult` dataclass of `compare-benchmark.py`. -/
structure BenchmarkResult where
  name : String
  median : ℚ
  mean : ℚ
  std_dev : ℚ
  values : List ℚ
deriving Repr, DecidableEq

/-- A Python exception that escapes a function of `compare-benchmark.py`
uncaught and aborts the whole run: `parse_result_file`'s `except` clause
catches only `JSONDecodeError`, `KeyError` and `IndexError`, so
`statistics.StatisticsError` propagates; `compare_results` catches nothing,
so dividing by a baseline value of exactly `0` raises `ZeroDivisionError`. -/
inductive PyError where
  | statisticsError : PyError
  | zeroDivisionError : PyError
deriving Repr, DecidableEq

/-- Stats extraction from a nested stats object in `compare-benchmark.py`:
`values = total_data.get("values", [])`;
`median = total_data.get("median", statistics.median(values) if values else 0)`;
`mean = total_data.get("mean", statistics.mean(values) if values else 0)`;
`std_dev = total_data.get("stddev", statistics.stdev(values) if len(values) > 1 else 0)`. -/
def statsFromObjCB (so : StatsObj) : ℚ × ℚ × ℚ × List ℚ :=
  let values := so.values.getD []
  (so.median.getD (if values.isEmpty then 0 else medianInterp values),
   so.mean.getD (if values.isEmpty then 0 else meanQ values),
   so.stddev.getD (if values.length > 1 then varQ values else 0),
   values)

/-- Stats extraction from the entry under `"total"` / `"DEFAULT"` in
`compare-benchmark.py`: a dict goes through `statsFromObjCB`; otherwise
`values = total_data if isinstance(total_data, list) else []` and each
statistic is guarded by emptiness. -/
def statsFromTotalCB : TotalData → ℚ × ℚ × ℚ × List ℚ
  | .obj so => statsFromObjCB so
  | .arr vs =>
      (if vs.isEmpty then 0 else medianInterp vs,
       if vs.isEmpty then 0 else meanQ vs,
       if vs.length > 1 then varQ vs else 0,
       vs)
  | .other => (0, 0, 0, [])

/-- `parse_result_file` of `compare-benchmark.py` on an already-decoded
document.  `Except.error` models an uncaught Python exception (the legacy
flat-array branch computes `statistics.median(values)` unguarded, which
raises `StatisticsError` on an empty array); `.ok none` models the
skip-with-warning paths; `.ok (some r)` a parsed record. -/
def parseResultFileCB (stem : String) (doc : Doc) :
    Except PyError (Option BenchmarkResult) :=
  match doc with
  | .noValues => .ok none
  | .withValues vo =>
    match vo with
    | .dict total dflt _other =>
      match total with
      | some td =>
          let s := statsFromTotalCB td
          .ok (some ⟨benchName stem, s.1, s.2.1, s.2.2.1, s.2.2.2⟩)
      | none =>
        match dflt with
        | some dd =>
            let s := statsFromTotalCB dd
            .ok (some ⟨benchName stem, s.1, s.2.1, s.2.2.1, s.2.2.2⟩)
        | none => .ok none
    | .arr vs =>
      if vs.isEmpty then .error .statisticsError
      else .ok (some ⟨benchName stem, medianInterp vs, meanQ vs,
                      if vs.length > 1 then varQ vs else 0, vs⟩)

/-! ## `convert-e2e-results.py` — `parse_result_file` -/

/-- The record returned by `parse_result_file` of `convert-e2e-results.py`
(`{"name": ..., "median": ..., "mean": ..., "values": ...}`). -/
structure E2EResult where
  name : String
  median : ℚ
  mean : ℚ
  values : List ℚ
deriving Repr, DecidableEq

/-- Stats extraction from a nested stats object in `convert-e2e-results.py`:
`median = total_data.get("median", sorted(values)[len(values) // 2] if values else 0)`;
`mean = total_data.get("mean", sum(values) / len(values) if values else 0)`. -/
def statsFromObjCE (so : StatsObj) : ℚ × ℚ × List ℚ :=
  let values := so.values.getD []
  (so.median.getD (if values.isEmpty then 0 else medianLower values),
   so.mean.getD (if values.isEmpty then 0 else meanQ values),
   values)

/-- Stats extraction from the entry under `"total"` / `"DEFAULT"` in
`convert-e2e-results.py`. -/
def statsFromTotalCE : TotalData → ℚ × ℚ × List ℚ
  | .obj so => statsFromObjCE so
  | .arr vs =>
      (if vs.isEmpty then 0 else medianLower vs,
       if vs.isEmpty then 0 else meanQ vs,
       vs)
  | .other => (0, 0, [])

/-- `parse_result_file` of `convert-e2e-results.py` on an already-decoded
document.  All exceptions it can raise (`IndexError` on the flat-array
indexing is prevented by the `if not values_obj: return None` guard) are in
its `except` tuple, so the function is total and returns `none` for every
skipped file. -/
def parseResultFileCE (stem : String) (doc : Doc) : Option E2EResult :=
  match doc with
  | .noValues => none
  | .withValues vo =>
    if valuesObjFalsy vo then none
    else
      match vo with
      | .dict total dflt _other =>
        match total with
        | some td =>
            let s := statsFromTotalCE td
            some ⟨benchName stem, s.1, s.2.1, s.2.2⟩
        | none =>
          match dflt with
          | some dd =>
              let s := statsFromTotalCE dd
              some ⟨benchName stem, s.1, s.2.1, s.2.2⟩
          | none => none
      | .arr vs => some ⟨benchName stem, medianLower vs, meanQ vs, vs⟩

/-! ## `compare-benchmark.py` — `compare_results` (delta-percent policy)

Python `dict`s keyed by benchmark name are modelled as association lists
(insertion-ordered, as Python dicts are); `lookupQ` is `dict[...]` /
key-membership. -/

/-- `Comparison` dataclass of `compare-benchmark.py`. -/
structure Comparison where
  name : String
  current : ℚ
  baseline : ℚ
  diff_percent : ℚ
  is_regression : Bool
  is_improvement : Bool
deriving Repr, DecidableEq

/-- Lookup in an association-list model of a Python dict
(first binding wins; a Python dict has unique keys). -/
def lookupQ (m : List (String × ℚ)) (k : String) : Option ℚ :=
  (m.find? (fun p => p.1 == k)).map Prod.snd

/-- The body of the `for name, result in current.items()` loop of
`compare_results` in `compare-benchmark.py`: skip a name absent from the
baseline map, otherwise emit a `Comparison` with
`diff_percent = ((current − baseline) / baseline) * 100`,
`is_regression = diff_percent > threshold`,
`is_improvement = diff_percent < -threshold`.  There is no check on the
sign of the baseline value.  (For a baseline of exactly `0` Python raises
`ZeroDivisionError` instead of emitting a comparison; that abort is
modelled by `compareResultsExc` below, which agrees with the `filterMap`
over this body whenever no matched baseline is zero, so the junk value of
total rational division at `0` is never relied upon.) -/
def compareResultsOne (baseline : List (String × ℚ)) (threshold : ℚ)
    (nr : String × BenchmarkResult) : Option Comparison :=
  match lookupQ baseline nr.1 with
  | none => none
  | some b =>
      let c := nr.2.median
      let d := (c - b) / b * 100
      some ⟨nr.1, c, b, d, decide (d > threshold), decide (d < -threshold)⟩

/-- `compare_results` of `compare-benchmark.py`: the list of comparisons the
loop emits when it returns (see `compareResultsExc` for the
division-by-zero abort at a baseline of exactly `0`). -/
def compareResults (current : List (String × BenchmarkResult))
    (baseline : List (String × ℚ)) (threshold : ℚ) : List Comparison :=
  current.filterMap (compareResultsOne baseline threshold)

/-- `compare_results` of `compare-benchmark.py` with its Python error
behaviour explicit: the loop body divides by `baseline_value`
unconditionally, so a matched name whose baseline value is exactly `0`
raises an uncaught `ZeroDivisionError` and the whole call aborts with no
output; names absent from the baseline map are skipped as before. -/
def compareResultsExc (baseline : List (String × ℚ)) (threshold : ℚ) :
    List (String × BenchmarkResult) → Except PyError (List Comparison)
  | [] => .ok []
  | nr :: rest =>
    match lookupQ baseline nr.1 with
    | none => compareResultsExc baseline threshold rest
    | some b =>
        if b = 0 then .error .zeroDivisionError
        else
          match compareResultsExc baseline threshold rest with
          | .error e => .error e
          | .ok comps =>
              let c := nr.2.median
              let d := (c - b) / b * 100
              .ok (⟨nr.1, c, b, d, decide (d > threshold), decide (d < -threshold)⟩ :: comps)

/-! ## `compare-benchmarks.py` — `compare_metrics` (ratio-percent policy) -/

/-- `BenchmarkComparison` dataclass of `compare-benchmarks.py`. -/
structure BenchmarkComparison where
  name : String
  baseline_value : ℚ
  pr_value : ℚ
  unit : String
  ratio : ℚ
  threshold : ℚ
  passed : Bool
  is_throughput : Bool
deriving Repr, DecidableEq

/-- One iteration of the `for name in sorted(common_names)` loop body of
`compare_metrics`: skip the name when `baseline_val <= 0`, otherwise emit a
comparison with `ratio = pr_val / baseline_val` and
`passed = ratio * 100 <= threshold_percent`. -/
def compareOne (baseline pr : List (String × ℚ)) (thresholdPercent : ℚ)
    (unit : String) (isThroughput : Bool) (name : String) :
    Option BenchmarkComparison :=
  match lookupQ baseline name, lookupQ pr name with
  | some b, some p =>
      if b ≤ 0 then none
      else
        some ⟨name, b, p, unit, p / b, thresholdPercent,
              decide (p / b * 100 ≤ thresholdPercent), isThroughput⟩
  | _, _ => none

/-- `sorted(set(baseline.keys()) & set(pr.keys()))`. -/
def commonSorted (baseline pr : List (String × ℚ)) : List String :=
  (((baseline.map Prod.fst).filter (fun n => (lookupQ pr n).isSome)).dedup).insertionSort (· ≤ ·)

/-- `compare_metrics` of `compare-benchmarks.py`. -/
def compareMetrics (baseline pr : List (String × ℚ)) (thresholdPercent : ℚ)
    (unit : String) (isThroughput : Bool) : List BenchmarkComparison :=
  (commonSorted baseline pr).filterMap
    (compareOne baseline pr thresholdPercent unit isThroughput)

/-! ## `analyze_e2e_results.py` — failure classification

The `TIMEOUT_PATTERNS` / `ASSERTION_PATTERNS` regexes use only three
constructs: literal runs, `.*` (any run of non-newline characters — the
scripts pass `re.IGNORECASE` but not `re.DOTALL`) and `\d+` (one or more
digits).  A pattern is a token list; `re.search` with `re.IGNORECASE` is
modelled by lower-casing the text (the patterns are ASCII) and searching
for a match at any starting position. -/

/-- One regex token: a literal character run (stored lower-case), `.*`, or
`\d+`. -/
inductive RTok where
  | lit : List Char → RTok
  | anyStar : RTok
  | digits : RTok
deriving Repr, DecidableEq

/-- Does the token list match some prefix of `s`?  Fuel-indexed so that the
recursion is structural; every recursive call strictly decreases
`s.length + toks.length`, so fuel `s.length + toks.length + 1` (used by
`matchToks`) never runs out. -/
def matchToksF : Nat → List RTok → List Char → Bool
  | 0, _, _ => false
  | _ + 1, [], _ => true
  | f + 1, .lit l :: rest, s =>
      l.isPrefixOf s && matchToksF f rest (s.drop l.length)
  | f + 1, .anyStar :: rest, s =>
      matchToksF f rest s ||
        (match s with
         | [] => false
         | c :: cs => decide (c ≠ '\n') && matchToksF f (.anyStar :: rest) cs)
  | f + 1, .digits :: rest, s =>
      match s with
      | [] => false
      | c :: cs => c.isDigit && (matchToksF f rest cs || matchToksF f (.digits :: rest) cs)

/-- Does the token list match some prefix of `s`? -/
def matchToks (toks : List RTok) (s : List Char) : Bool :=
  matchToksF (s.length + toks.length + 1) toks s

/-- `re.search`: does the pattern match starting at any position of `s`? -/
def reSearch (toks : List RTok) : List Char → Bool
  | [] => matchToks toks []
  | c :: cs => matchToks toks (c :: cs) || reSearch toks cs

/-- A literal token from a string (lower-cased, as matching is
case-insensitive and the text is lower-cased). -/
def lit (s : String) : RTok := .lit s.data

/-- `TIMEOUT_PATTERNS` of `analyze_e2e_results.py`:
`TimeoutException`, `Timeout.*exceeded`, `timeout.*ms`,
`waiting for.*timed out`, `Timeout \d+ms exceeded`,
`Page\..*\(\).*Timeout`, `locator.*timeout`. -/
def TIMEOUT_PATTERNS : List (List RTok) :=
  [[lit "timeoutexception"],
   [lit "timeout", .anyStar, lit "exceeded"],
   [lit "timeout", .anyStar, lit "ms"],
   [lit "waiting for", .anyStar, lit "timed out"],
   [lit "timeout ", .digits, lit "ms exceeded"],
   [lit "page.", .anyStar, lit "()", .anyStar, lit "timeout"],
   [lit "locator", .anyStar, lit "timeout"]]

/-- `ASSERTION_PATTERNS` of `analyze_e2e_results.py`:
`Expected.*but.*got`, `Expected.*to.*but`, `Assert\.`,
`AssertionException`, `ToBeVisible.*failed`, `ToHaveText.*failed`,
`ToContain.*failed`, `Expected true but was false`,
`Expected false but was true`. -/
def ASSERTION_PATTERNS : List (List RTok) :=
  [[lit "expected", .anyStar, lit "but", .anyStar, lit "got"],
   [lit "expected", .anyStar, lit "to", .anyStar, lit "but"],
   [lit "assert."],
   [lit "assertionexception"],
   [lit "tobevisible", .anyStar, lit "failed"],
   [lit "tohavetext", .anyStar, lit "failed"],
   [lit "tocontain", .anyStar, lit "failed"],
   [lit "expected true but was false"],
   [lit "expected false but was true"]]

/-- One test result from the TRX file (fields of the `TestResult` class). -/
structure TestResult where
  name : String
  outcome : String
  message : String
  stack_trace : String
deriving Repr, DecidableEq

/-- The lower-cased `combined_text = f"{self.message} {self.stack_trace}"`
the patterns are searched in. -/
def combinedText (r : TestResult) : List Char :=
  (r.message ++ " " ++ r.stack_trace).data.map Char.toLower

/-- `TestResult._categorize_failure`: `"passed"` for outcome `"Passed"`;
otherwise `"timeout"` if any timeout pattern matches the combined text,
else `"assertion"` if any assertion pattern matches, else `"unknown"`. -/
def failureType (r : TestResult) : String :=
  if r.outcome = "Passed" then "passed"
  else if TIMEOUT_PATTERNS.any (fun p => reSearch p (combinedText r)) then "timeout"
  else if ASSERTION_PATTERNS.any (fun p => reSearch p (combinedText r)) then "assertion"
  else "unknown"

/-! ## `analyze_e2e_results.py` — counts and decision logic -/

/-- The `counts` dictionary built by `parse_trx_file`. -/
structure Counts where
  total : Nat
  passed : Nat
  failed : Nat
  timeout : Nat
  assertion : Nat
  unknown : Nat
deriving Repr, DecidableEq

/-- `parse_trx_file`'s outcome/category counts over the result list. -/
def mkCounts (rs : List TestResult) : Counts :=
  ⟨rs.length,
   rs.countP (fun r => r.outcome == "Passed"),
   rs.countP (fun r => r.outcome == "Failed"),
   rs.countP (fun r => failureType r == "timeout"),
   rs.countP (fun r => failureType r == "assertion"),
   rs.countP (fun r => failureType r == "unknown")⟩

/-- The exit code computed by `main` of `analyze_e2e_results.py` after
parsing (the decision section, lines 196-243): `0` when
`counts['failed'] == 0`; else `1` on any assertion failure; else `1` on any
unknown failure; else, on timeouts only, `1` in strict mode and `0`
otherwise; the final fail-safe branch exits `1`. -/
def mainExit (rs : List TestResult) (strict : Bool) : Nat :=
  let c := mkCounts rs
  if c.failed = 0 then 0
  else if 0 < c.assertion then 1
  else if 0 < c.unknown then 1
  else if 0 < c.timeout then (if strict then 1 else 0)
  else 1

/-- Modelled from the spec (§4.6, for comparison with `mainExit`): the
decision policy as the spec words it — assertion failures fail
unconditionally, then unknown failures fail, then timeout failures fail
exactly in strict mode, and zero failures pass. -/
def specDecision (c : Counts) (strict : Bool) : Nat :=
  if 0 < c.assertion then 1
  else if 0 < c.unknown then 1
  else if 0 < c.timeout then (if strict then 1 else 0)
  else 0

/-! ## Helper lemmas -/

/-- A non-`"Passed"` result is always assigned one of the three failure
categories. -/
theorem failureType_cases (r : TestResult) (h : r.outcome ≠ "Passed") :
    failureType r = "timeout" ∨ failureType r = "assertion" ∨ failureType r = "unknown" := by
  unfold failureType
  rw [if_neg h]
  split
  · exact Or.inl rfl
  · split
    · exact Or.inr (Or.inl rfl)
    · exact Or.inr (Or.inr rfl)

/-- A member with outcome `"Failed"` makes one of the three failure-category
counts positive. -/
theorem cats_pos_of_mem_failed (rs : List TestResult) (r : TestResult)
    (hr : r ∈ rs) (hout : r.outcome = "Failed") :
    0 < (mkCounts rs).timeout ∨ 0 < (mkCounts rs).assertion ∨ 0 < (mkCounts rs).unknown := by
  have hne : r.outcome ≠ "Passed" := by rw [hout]; decide
  rcases failureType_cases r hne with h1 | h1 | h1
  · exact Or.inl (List.countP_pos_iff.mpr ⟨r, hr, by simp [h1]⟩)
  · exact Or.inr (Or.inl (List.countP_pos_iff.mpr ⟨r, hr, by simp [h1]⟩))
  · exact Or.inr (Or.inr (List.countP_pos_iff.mpr ⟨r, hr, by simp [h1]⟩))

/-- Whenever the delta-percent comparator returns at all, every name matched
in the baseline map appears in its output — with no check on the sign of
its baseline value. -/
theorem compareResultsExc_mem (baseline : List (String × ℚ)) (T b : ℚ)
    (current : List (String × BenchmarkResult)) (nr : String × BenchmarkResult)
    (comps : List Comparison)
    (hexc : compareResultsExc baseline T current = .ok comps)
    (hmem : nr ∈ current) (hb : lookupQ baseline nr.1 = some b) :
    ∃ comp ∈ comps, comp.name = nr.1 ∧ comp.baseline = b := by
  induction current generalizing comps with
  | nil => cases hmem
  | cons hd rest ih =>
    simp only [compareResultsExc] at hexc
    rcases List.mem_cons.mp hmem with heq | hmem'
    · subst heq
      rw [hb] at hexc
      by_cases h0 : b = 0
      · simp [h0] at hexc
      · simp only [if_neg h0] at hexc
        cases hrest : compareResultsExc baseline T rest with
        | error e => rw [hrest] at hexc; cases hexc
        | ok comps' =>
          rw [hrest] at hexc
          obtain rfl := Except.ok.inj hexc
          exact ⟨_, List.mem_cons_self _ _, rfl, rfl⟩
    · cases hl : lookupQ baseline hd.1 with
      | none =>
        rw [hl] at hexc
        exact ih comps hexc hmem'
      | some b' =>
        rw [hl] at hexc
        by_cases h0 : b' = 0
        · simp [h0] at hexc
        · simp only [if_neg h0] at hexc
          cases hrest : compareResultsExc baseline T rest with
          | error e => rw [hrest] at hexc; cases hexc
          | ok comps' =>
            rw [hrest] at hexc
            obtain rfl := Except.ok.inj hexc
            obtain ⟨comp, hc, hn, hbx⟩ := ih comps' hrest hmem'
            exact ⟨comp, List.mem_cons_of_mem _ hc, hn, hbx⟩

/-- A matched name with baseline value exactly `0` makes the delta-percent
comparator abort with `ZeroDivisionError`. -/
theorem compareResultsExc_zero (baseline : List (String × ℚ)) (T : ℚ)
    (current : List (String × BenchmarkResult)) (nr : String × BenchmarkResult)
    (hmem : nr ∈ current) (hb : lookupQ baseline nr.1 = some 0) :
    compareResultsExc baseline T current = .error .zeroDivisionError := by
  induction current with
  | nil => cases hmem
  | cons hd rest ih =>
    simp only [compareResultsExc]
    rcases List.mem_cons.mp hmem with heq | hmem'
    · subst heq
      rw [hb]
      simp
    · cases hl : lookupQ baseline hd.1 with
      | none => exact ih hmem'
      | some b' =>
        by_cases h0 : b' = 0
        · simp [h0]
        · simp [h0, ih hmem']

/-- With no matched zero baseline, the delta-percent comparator returns
exactly the `compareResults` list. -/
theorem compareResultsExc_agrees (baseline : List (String × ℚ)) (T : ℚ)
    (current : List (String × BenchmarkResult))
    (h : ∀ nr ∈ current, lookupQ baseline nr.1 ≠ some 0) :
    compareResultsExc baseline T current = .ok (compareResults current baseline T) := by
  induction current with
  | nil => rfl
  | cons hd rest ih =>
    have hrest := ih (fun nr hm => h nr (List.mem_cons_of_mem _ hm))
    simp only [compareResults, List.filterMap_cons] at hrest ⊢
    simp only [compareResultsExc]
    cases hl : lookupQ baseline hd.1 with
    | none =>
      have hone : compareResultsOne baseline T hd = none := by
        unfold compareResultsOne; rw [hl]
      simp [hone, hrest]
    | some b =>
      have h0 : b ≠ 0 := fun hb0 => h hd (List.mem_cons_self _ _) (by rw [hl, hb0])
      have hone : compareResultsOne baseline T hd
          = some ⟨hd.1, hd.2.median, b, (hd.2.median - b) / b * 100,
                  decide ((hd.2.median - b) / b * 100 > T),
                  decide ((hd.2.median - b) / b * 100 < -T)⟩ := by
        unfold compareResultsOne; rw [hl]
      simp [hone, h0, hrest]

/-! ## Claim theorems -/

/-- C9: for every test result whose outcome string is exactly `"Passed"`,
the derived failure category is `"passed"` regardless of the message and
stack-trace content — the pattern search is never consulted. -/
theorem passed_outcome_never_classified (name msg st : String) :
    failureType ⟨name, "Passed", msg, st⟩ = "passed" := rfl

/-- C10: if at least one parsed result has outcome `"Failed"`, then at least
one of the timeout, assertion, or unknown category counts is positive (every
non-Passed result is assigned one of those three categories), so the final
fail-safe "Unexpected state" branch of `main`'s decision logic — reached
only when `failed > 0` but all three counts are zero — is unreachable. -/
theorem failed_result_always_categorized (rs : List TestResult)
    (h : ∃ r ∈ rs, r.outcome = "Failed") :
    0 < (mkCounts rs).timeout ∨ 0 < (mkCounts rs).assertion ∨ 0 < (mkCounts rs).unknown := by
  obtain ⟨r, hr, hout⟩ := h
  exact cats_pos_of_mem_failed rs r hr hout

/-- C10 witness: a single result with outcome `"Failed"` and no matching
pattern lands in the unknown category. -/
theorem failed_result_always_categorized_witness :
    0 < (mkCounts [⟨"t", "Failed", "", ""⟩]).timeout
    ∨ 0 < (mkCounts [⟨"t", "Failed", "", ""⟩]).assertion
    ∨ 0 < (mkCounts [⟨"t", "Failed", "", ""⟩]).unknown :=
  failed_result_always_categorized [⟨"t", "Failed", "", ""⟩]
    ⟨⟨"t", "Failed", "", ""⟩, by decide, rfl⟩

/-- C5 counterexample: a result whose outcome is neither `"Passed"` nor
`"Failed"` (e.g. the `"Unknown"` default for a missing outcome attribute) is
classified into the unknown failure category, yet `main` exits `0` in both
modes because `counts['failed'] == 0` is checked first — so an
unknown-category failure does not fail the run, contrary to the claim. -/
theorem unknown_category_without_failed_passes :
    0 < (mkCounts [⟨"t", "Unknown", "", ""⟩]).unknown
    ∧ mainExit [⟨"t", "Unknown", "", ""⟩] true = 0
    ∧ mainExit [⟨"t", "Unknown", "", ""⟩] false = 0 := by decide

/-- C5 (amended): for result sets in which every outcome is `"Passed"` or
`"Failed"`, the decision policy evaluates in strict precedence order:
any assertion-category failure fails the run; otherwise any
unknown-category failure fails it; otherwise timeout-category failures fail
it exactly when the strict flag is set; and with zero failures it passes. -/
theorem decision_precedence (rs : List TestResult) (strict : Bool)
    (h : ∀ r ∈ rs, r.outcome = "Passed" ∨ r.outcome = "Failed") :
    mainExit rs strict = specDecision (mkCounts rs) strict := by
  unfold mainExit specDecision
  by_cases hf : (mkCounts rs).failed = 0
  · have hpassed : ∀ r ∈ rs, r.outcome = "Passed" := by
      intro r hr
      refine (h r hr).resolve_right fun hB => ?_
      exact List.countP_eq_zero.mp hf r hr (by simp [hB])
    have hcat : ∀ (cat : String), cat ≠ "passed" →
        rs.countP (fun r => failureType r == cat) = 0 := by
      intro cat hcatne
      refine List.countP_eq_zero.mpr fun r hr => ?_
      have : failureType r = "passed" := by
        unfold failureType
        rw [if_pos (hpassed r hr)]
      simp [this, Ne.symm hcatne]
    have ha : (mkCounts rs).assertion = 0 := hcat "assertion" (by decide)
    have hu : (mkCounts rs).unknown = 0 := hcat "unknown" (by decide)
    have ht : (mkCounts rs).timeout = 0 := hcat "timeout" (by decide)
    rw [if_pos hf, ha, hu, ht]
    simp
  · rw [if_neg hf]
    by_cases ha : 0 < (mkCounts rs).assertion
    · rw [if_pos ha, if_pos ha]
    · rw [if_neg ha, if_neg ha]
      by_cases hu : 0 < (mkCounts rs).unknown
      · rw [if_pos hu, if_pos hu]
      · rw [if_neg hu, if_neg hu]
        by_cases ht : 0 < (mkCounts rs).timeout
        · rw [if_pos ht, if_pos ht]
        · exfalso
          have hex : ∃ r ∈ rs, r.outcome = "Failed" := by
            obtain ⟨r, hr, hp⟩ := List.countP_pos_iff.mp (Nat.pos_of_ne_zero hf)
            exact ⟨r, hr, by simpa using hp⟩
          obtain ⟨r, hr, hout⟩ := hex
          rcases cats_pos_of_mem_failed rs r hr hout with h1 | h1 | h1
          exacts [ht h1, ha h1, hu h1]

/-- C5 witness: a single assertion-style failed result makes both sides exit `1`. -/
theorem decision_precedence_witness :
    mainExit [⟨"t", "Failed", "Expected true but was false", ""⟩] false
      = specDecision (mkCounts [⟨"t", "Failed", "Expected true but was false", ""⟩]) false :=
  decision_precedence [⟨"t", "Failed", "Expected true but was false", ""⟩] false (by decide)

/-- C4: for every test result whose outcome is not `"Passed"`,
classification searches the case-insensitive concatenation of message and
stack trace: if any timeout pattern matches, the category is `"timeout"`
even when an assertion pattern also matches (timeout patterns are tested
strictly before assertion patterns); otherwise, if any assertion pattern
matches, the category is `"assertion"`; otherwise it is `"unknown"`. -/
theorem classifier_precedence (r : TestResult) (h : r.outcome ≠ "Passed") :
    ((∃ p ∈ TIMEOUT_PATTERNS, reSearch p (combinedText r) = true) →
        failureType r = "timeout")
    ∧ ((∀ p ∈ TIMEOUT_PATTERNS, reSearch p (combinedText r) = false) →
        (∃ p ∈ ASSERTION_PATTERNS, reSearch p (combinedText r) = true) →
        failureType r = "assertion")
    ∧ ((∀ p ∈ TIMEOUT_PATTERNS, reSearch p (combinedText r) = false) →
        (∀ p ∈ ASSERTION_PATTERNS, reSearch p (combinedText r) = false) →
        failureType r = "unknown") := by
  refine ⟨fun ⟨p, hp, hs⟩ => ?_, fun hT ⟨p, hp, hs⟩ => ?_, fun hT hA => ?_⟩
  · have hany : TIMEOUT_PATTERNS.any (fun q => reSearch q (combinedText r)) = true :=
      List.any_eq_true.mpr ⟨p, hp, hs⟩
    simp [failureType, h, hany]
  · have h1 : TIMEOUT_PATTERNS.any (fun q => reSearch q (combinedText r)) = false := by
      simp only [List.any_eq_false]
      intro q hq
      simp [hT q hq]
    have h2 : ASSERTION_PATTERNS.any (fun q => reSearch q (combinedText r)) = true :=
      List.any_eq_true.mpr ⟨p, hp, hs⟩
    simp [failureType, h, h1, h2]
  · have h1 : TIMEOUT_PATTERNS.any (fun q => reSearch q (combinedText r)) = false := by
      simp only [List.any_eq_false]
      intro q hq
      simp [hT q hq]
    have h2 : ASSERTION_PATTERNS.any (fun q => reSearch q (combinedText r)) = false := by
      simp only [List.any_eq_false]
      intro q hq
      simp [hA q hq]
    simp [failureType, h, h1, h2]

/-- C4 witness: a failed result whose text matches both a timeout pattern
(`timeout.*ms` / `Timeout \d+ms exceeded`) and an assertion pattern
(`Expected true but was false`) is classified as a timeout. -/
theorem classifier_precedence_witness :
    (∃ p ∈ TIMEOUT_PATTERNS,
        reSearch p (combinedText ⟨"t", "Failed", "Timeout 30ms exceeded", "Expected true but was false"⟩) = true)
    ∧ (∃ p ∈ ASSERTION_PATTERNS,
        reSearch p (combinedText ⟨"t", "Failed", "Timeout 30ms exceeded", "Expected true but was false"⟩) = true)
    ∧ failureType ⟨"t", "Failed", "Timeout 30ms exceeded", "Expected true but was false"⟩ = "timeout" :=
  ⟨by decide, by decide,
   (classifier_precedence ⟨"t", "Failed", "Timeout 30ms exceeded", "Expected true but was false"⟩
      (by decide)).1 (by decide)⟩

/-- C6: under the delta-percent policy, every emitted comparison for a
matched name carries `diff_percent = (current − baseline) / baseline * 100`,
is a regression exactly when `diff_percent > threshold`, an improvement
exactly when `diff_percent < −threshold`, and neutral otherwise; the
current value is the matched result's median and the baseline value the
baseline map's entry. -/
theorem delta_percent_policy (current : List (String × BenchmarkResult))
    (baseline : List (String × ℚ)) (threshold : ℚ) (comp : Comparison)
    (h : comp ∈ compareResults current baseline threshold) :
    comp.diff_percent = (comp.current - comp.baseline) / comp.baseline * 100
    ∧ (comp.is_regression = true ↔ comp.diff_percent > threshold)
    ∧ (comp.is_improvement = true ↔ comp.diff_percent < -threshold)
    ∧ lookupQ baseline comp.name = some comp.baseline
    ∧ ∃ r : BenchmarkResult, (comp.name, r) ∈ current ∧ comp.current = r.median := by
  obtain ⟨nr, hmem, hf⟩ := List.mem_filterMap.mp h
  unfold compareResultsOne at hf
  cases hB : lookupQ baseline nr.1 with
  | none => rw [hB] at hf; cases hf
  | some b =>
    rw [hB] at hf
    obtain rfl := Option.some.inj hf
    exact ⟨rfl, decide_eq_true_iff, decide_eq_true_iff, hB, nr.2, hmem, rfl⟩

/-- C6 witness: the spec's example — baseline 100, current median 106,
threshold 5 gives `diff_percent` 6 and a regression (and, via `decide`,
baseline 100, current 104 gives neither regression nor improvement). -/
theorem delta_percent_policy_witness :
    ((6 : ℚ) = (106 - 100) / 100 * 100
     ∧ (true = true ↔ (6 : ℚ) > 5)
     ∧ (false = true ↔ (6 : ℚ) < -5)
     ∧ lookupQ [("01_run1k", 100)] "01_run1k" = some 100
     ∧ ∃ r : BenchmarkResult,
         ("01_run1k", r) ∈ [("01_run1k", (⟨"01_run1k", 106, 106, 0, []⟩ : BenchmarkResult))]
         ∧ (106 : ℚ) = r.median)
    ∧ compareResults [("01_run1k", ⟨"01_run1k", 104, 104, 0, []⟩)] [("01_run1k", 100)] 5
        = [⟨"01_run1k", 104, 100, 4, false, false⟩] :=
  ⟨delta_percent_policy [("01_run1k", ⟨"01_run1k", 106, 106, 0, []⟩)] [("01_run1k", 100)] 5
      ⟨"01_run1k", 106, 100, 6, true, false⟩
      (by norm_num [compareResults, compareResultsOne, lookupQ, List.filterMap_cons, List.find?]),
   by norm_num [compareResults, compareResultsOne, lookupQ, List.filterMap_cons, List.find?]⟩

/-- The unit-independent content of a `BenchmarkComparison` (everything but
the formatting fields `unit` and `is_throughput`). -/
def stripUnits (c : BenchmarkComparison) : String × ℚ × ℚ × ℚ × ℚ × Bool :=
  (c.name, c.baseline_value, c.pr_value, c.ratio, c.threshold, c.passed)

/-- C7: under the ratio-percent policy every emitted comparison passes
exactly when `pr / baseline * 100 ≤ threshold`, and the rule is applied
identically to time-based (`ns`) and allocation (`bytes`) metrics: apart
from the stored formatting fields, the output does not depend on the unit
or the throughput flag. -/
theorem ratio_percent_policy (baseline pr : List (String × ℚ)) (T : ℚ)
    (u : String) (i : Bool) (comp : BenchmarkComparison)
    (h : comp ∈ compareMetrics baseline pr T u i) :
    (comp.passed = true ↔ comp.pr_value / comp.baseline_value * 100 ≤ T)
    ∧ comp.ratio = comp.pr_value / comp.baseline_value
    ∧ comp.threshold = T
    ∧ ∀ (u' : String) (i' : Bool),
        (compareMetrics baseline pr T u' i').map stripUnits
          = (compareMetrics baseline pr T u i).map stripUnits := by
  have indep : ∀ (u1 : String) (i1 : Bool) (u2 : String) (i2 : Bool),
      (compareMetrics baseline pr T u1 i1).map stripUnits
        = (compareMetrics baseline pr T u2 i2).map stripUnits := by
    intro u1 i1 u2 i2
    unfold compareMetrics
    rw [List.map_filterMap, List.map_filterMap]
    congr 1
    funext name
    unfold compareOne
    cases lookupQ baseline name with
    | none => rfl
    | some b =>
      cases lookupQ pr name with
      | none => rfl
      | some p =>
        by_cases hb : b ≤ 0 <;> simp [hb, stripUnits]
  obtain ⟨name, hn, hf⟩ := List.mem_filterMap.mp h
  unfold compareOne at hf
  cases hB : lookupQ baseline name with
  | none => rw [hB] at hf; cases hf
  | some b =>
    cases hP : lookupQ pr name with
    | none => rw [hB, hP] at hf; cases hf
    | some p =>
      rw [hB, hP] at hf
      by_cases hb : b ≤ 0
      · simp [hb] at hf
      · simp only [if_neg hb] at hf
        obtain rfl := Option.some.inj hf
        exact ⟨decide_eq_true_iff, rfl, rfl, fun u' i' => indep u' i' u i⟩

/-- C7 witness: the spec's examples — baseline 1000, current 1150,
threshold 110 fails (`ratioPercent` 115); baseline 1000, current 1050
passes; the allocation (`bytes`) table applies the same rule. -/
theorem ratio_percent_policy_witness :
    ((false = true ↔ (1150 : ℚ) / 1000 * 100 ≤ 110)
     ∧ (23 : ℚ) / 20 = (1150 : ℚ) / 1000
     ∧ (110 : ℚ) = 110
     ∧ ∀ (u' : String) (i' : Bool),
         (compareMetrics [("Alloc", 1000)] [("Alloc", 1150)] 110 u' i').map stripUnits
           = (compareMetrics [("Alloc", 1000)] [("Alloc", 1150)] 110 "ns" true).map stripUnits)
    ∧ compareMetrics [("Alloc", 1000)] [("Alloc", 1050)] 110 "bytes" false
        = [⟨"Alloc", 1000, 1050, "bytes", 21/20, 110, true, false⟩] :=
  ⟨ratio_percent_policy [("Alloc", 1000)] [("Alloc", 1150)] 110 "ns" true
      ⟨"Alloc", 1000, 1150, "ns", 23/20, 110, false, true⟩
      (by norm_num [compareMetrics, commonSorted, compareOne, lookupQ, List.insertionSort,
        List.orderedInsert, List.filterMap_cons, List.find?]),
   by norm_num [compareMetrics, commonSorted, compareOne, lookupQ, List.insertionSort,
     List.orderedInsert, List.filterMap_cons, List.find?]⟩

/-- C2 counterexample: under the delta-percent policy (`compare_results` of
`compare-benchmark.py`) a matched name whose baseline value is negative is
not skipped: it appears in the Comparison output, refuting the claim that
both policies emit a name only when its reference value is strictly
positive.  (A baseline of exactly `0` is likewise not skipped there and
makes Python divide by zero.) -/
theorem negative_baseline_not_skipped :
    compareResults [("09_clear1k", ⟨"09_clear1k", 5, 5, 0, []⟩)] [("09_clear1k", -1)] 5
      = [⟨"09_clear1k", 5, -1, -600, false, true⟩] := by
  norm_num [compareResults, compareResultsOne, lookupQ, List.filterMap_cons, List.find?]

/-- C2 (amended): under the ratio-percent policy (`compare_metrics`) a name
appears in the output only if it is present in both maps with a strictly
positive baseline value, so its division never divides by zero; under the
delta-percent policy (`compare_results`) there is no baseline-sign check:
whenever the call returns at all, every name present in both maps appears —
negative baselines included — while a matched name with baseline exactly
`0` makes the call raise an uncaught `ZeroDivisionError` rather than being
skipped; with no matched zero baseline the call returns exactly the
`compareResults` list. -/
theorem baseline_guard_policies :
    (∀ (baseline pr : List (String × ℚ)) (T : ℚ) (u : String) (i : Bool)
        (comp : BenchmarkComparison), comp ∈ compareMetrics baseline pr T u i →
        lookupQ baseline comp.name = some comp.baseline_value
        ∧ 0 < comp.baseline_value
        ∧ lookupQ pr comp.name = some comp.pr_value)
    ∧ (∀ (current : List (String × BenchmarkResult)) (baseline : List (String × ℚ))
        (T b : ℚ) (nr : String × BenchmarkResult) (comps : List Comparison),
        compareResultsExc baseline T current = .ok comps →
        nr ∈ current → lookupQ baseline nr.1 = some b →
        ∃ comp ∈ comps, comp.name = nr.1 ∧ comp.baseline = b)
    ∧ (∀ (current : List (String × BenchmarkResult)) (baseline : List (String × ℚ))
        (T : ℚ) (nr : String × BenchmarkResult),
        nr ∈ current → lookupQ baseline nr.1 = some 0 →
        compareResultsExc baseline T current = .error .zeroDivisionError)
    ∧ (∀ (current : List (String × BenchmarkResult)) (baseline : List (String × ℚ)) (T : ℚ),
        (∀ nr ∈ current, lookupQ baseline nr.1 ≠ some 0) →
        compareResultsExc baseline T current = .ok (compareResults current baseline T)) := by
  refine ⟨?_, ?_, ?_, ?_⟩
  · intro baseline pr T u i comp h
    obtain ⟨name, hn, hf⟩ := List.mem_filterMap.mp h
    unfold compareOne at hf
    cases hB : lookupQ baseline name with
    | none => rw [hB] at hf; cases hf
    | some b =>
      cases hP : lookupQ pr name with
      | none => rw [hB, hP] at hf; cases hf
      | some p =>
        rw [hB, hP] at hf
        by_cases hb : b ≤ 0
        · simp [hb] at hf
        · simp only [if_neg hb] at hf
          obtain rfl := Option.some.inj hf
          exact ⟨hB, lt_of_not_le hb, hP⟩
  · intro current baseline T b nr comps hexc hmem hb
    exact compareResultsExc_mem baseline T b current nr comps hexc hmem hb
  · intro current baseline T nr hmem hb
    exact compareResultsExc_zero baseline T current nr hmem hb
  · intro current baseline T h
    exact compareResultsExc_agrees baseline T current h

/-- C2 witness: concrete instantiations of all four parts of the amended
statement — the ratio-policy guard, a matched name emitted on a successful
delta-percent run, the `ZeroDivisionError` abort at a zero baseline, and
agreement of the error-explicit comparator with `compareResults` away from
zero baselines. -/
theorem baseline_guard_policies_witness :
    (lookupQ [("Render", 2)] "Render" = some 2
     ∧ (0 : ℚ) < 2
     ∧ lookupQ [("Render", 3)] "Render" = some 3)
    ∧ (∃ comp ∈ [(⟨"Render", 3, 2, 50, true, false⟩ : Comparison)],
        comp.name = "Render" ∧ comp.baseline = 2)
    ∧ compareResultsExc [("09_clear1k", 0)] 5
        [("09_clear1k", ⟨"09_clear1k", 5, 5, 0, []⟩)] = .error .zeroDivisionError
    ∧ compareResultsExc [("Render", 2)] 5 [("Render", ⟨"Render", 3, 3, 0, []⟩)]
        = .ok (compareResults [("Render", ⟨"Render", 3, 3, 0, []⟩)] [("Render", 2)] 5) :=
  ⟨baseline_guard_policies.1 [("Render", 2)] [("Render", 3)] 110 "ns" true
      ⟨"Render", 2, 3, "ns", 3/2, 110, false, true⟩
      (by norm_num [compareMetrics, commonSorted, compareOne, lookupQ, List.insertionSort,
        List.orderedInsert, List.filterMap_cons, List.find?]),
   baseline_guard_policies.2.1 [("Render", ⟨"Render", 3, 3, 0, []⟩)] [("Render", 2)] 5 2
      ("Render", ⟨"Render", 3, 3, 0, []⟩) [⟨"Render", 3, 2, 50, true, false⟩]
      (by norm_num [compareResultsExc, lookupQ, List.find?])
      (by decide) (by norm_num [lookupQ, List.find?]),
   baseline_guard_policies.2.2.1 [("09_clear1k", ⟨"09_clear1k", 5, 5, 0, []⟩)]
      [("09_clear1k", 0)] 5 ("09_clear1k", ⟨"09_clear1k", 5, 5, 0, []⟩)
      (by decide) (by norm_num [lookupQ, List.find?]),
   baseline_guard_policies.2.2.2 [("Render", ⟨"Render", 3, 3, 0, []⟩)] [("Render", 2)] 5
      (by intro nr hnr
          rw [List.mem_singleton] at hnr
          subst hnr
          norm_num [lookupQ, List.find?])⟩

/-- C8: when the stats object under the chosen key (`"total"`, or `"DEFAULT"`
when `"total"` is absent) supplies precomputed `median`/`mean`/`stddev`
fields, both normalizers return those values verbatim, for every raw
`values` array — even one that disagrees with a recomputation; nothing is
recomputed. -/
theorem precomputed_stats_verbatim (stem : String) (vals : Option (List ℚ))
    (m mu sd : ℚ) (dflt : Option TotalData) (other : Bool) :
    parseResultFileCB stem
        (.withValues (.dict (some (.obj ⟨vals, some m, some mu, some sd⟩)) dflt other))
      = .ok (some ⟨benchName stem, m, mu, sd, vals.getD []⟩)
    ∧ parseResultFileCB stem
        (.withValues (.dict none (some (.obj ⟨vals, some m, some mu, some sd⟩)) other))
      = .ok (some ⟨benchName stem, m, mu, sd, vals.getD []⟩)
    ∧ parseResultFileCE stem
        (.withValues (.dict (some (.obj ⟨vals, some m, some mu, some sd⟩)) dflt other))
      = some ⟨benchName stem, m, mu, vals.getD []⟩
    ∧ parseResultFileCE stem
        (.withValues (.dict none (some (.obj ⟨vals, some m, some mu, some sd⟩)) other))
      = some ⟨benchName stem, m, mu, vals.getD []⟩ :=
  ⟨rfl, rfl, rfl, rfl⟩

/-- C3 counterexample: a legacy flat-array document with an empty array is
handed by `compare-benchmark.py` to the unguarded
`statistics.median(values)` call, which raises `StatisticsError`; the
exception is not in the function's `except` tuple, so the per-file parse
does not default median/mean to 0, and the batch aborts rather than
skipping the file. -/
theorem empty_flat_array_raises :
    parseResultFileCB "abies_09" (.withValues (.arr [])) = .error .statisticsError := rfl

/-- C3 (amended): for nested (`total`/`DEFAULT`-keyed) documents an empty
sample sequence yields median/mean/stddev 0 rather than raising, and the
standard deviation of a single sample is 0; a document with no recognized
shape is excluded (the per-file parse returns no record) without aborting;
but in `compare-benchmark.py` a flat-array document with an empty array
raises an uncaught `StatisticsError` (in `convert-e2e-results.py` it is
merely excluded). -/
theorem normalizer_edge_cases (stem : String) (x : ℚ) :
    parseResultFileCB stem
        (.withValues (.dict (some (.obj ⟨some [], none, none, none⟩)) none false))
      = .ok (some ⟨benchName stem, 0, 0, 0, []⟩)
    ∧ parseResultFileCE stem
        (.withValues (.dict (some (.obj ⟨some [], none, none, none⟩)) none false))
      = some ⟨benchName stem, 0, 0, []⟩
    ∧ parseResultFileCB stem
        (.withValues (.dict (some (.obj ⟨some [x], none, none, none⟩)) none false))
      = .ok (some ⟨benchName stem, x, x, 0, [x]⟩)
    ∧ parseResultFileCB stem (.withValues (.dict none none true)) = .ok none
    ∧ parseResultFileCE stem (.withValues (.dict none none true)) = none
    ∧ parseResultFileCE stem (.withValues (.arr [])) = none
    ∧ parseResultFileCB stem (.withValues (.arr [])) = .error .statisticsError := by
  refine ⟨rfl, rfl, ?_, rfl, rfl, rfl, rfl⟩
  simp [parseResultFileCB, statsFromTotalCB, statsFromObjCB, medianInterp, sortedQ, meanQ,
    List.insertionSort, List.orderedInsert]

/-- C1 counterexample: for the flat-array samples `[4, 1, 3, 2]`,
`compare-benchmark.py`'s normalizer computes the interpolated
`statistics.median` `5/2`, not the element `3` at integer-division index
`4 // 2 = 2` of the sorted array `[1, 2, 3, 4]` that the claim requires. -/
theorem compare_flat_even_median_interpolated :
    parseResultFileCB "abies_05" (.withValues (.arr [4, 1, 3, 2]))
      = .ok (some ⟨benchName "abies_05", 5/2, 5/2, 5/3, [4, 1, 3, 2]⟩)
    ∧ sortedQ [4, 1, 3, 2] = [1, 2, 3, 4]
    ∧ (5 : ℚ)/2 ≠ (sortedQ [4, 1, 3, 2]).getD ([4, 1, 3, 2].length / 2) 0 := by
  refine ⟨?_, ?_, ?_⟩
  · norm_num [parseResultFileCB, statsFromTotalCB, medianInterp, sortedQ, meanQ, varQ,
      List.insertionSort, List.orderedInsert]
  · norm_num [sortedQ, List.insertionSort, List.orderedInsert]
  · norm_num [sortedQ, List.insertionSort, List.orderedInsert]

/-- C1 (amended): for every non-empty flat-array input, the normalizer of
`convert-e2e-results.py` returns as median exactly the element at
integer-division index `n // 2` of the sorted sample array; the normalizer
of `compare-benchmark.py` computes the interpolated `statistics.median`
instead, which agrees with that policy for odd sample counts but can
differ for even ones. -/
theorem convert_flat_median_lower_middle (stem : String) (vs : List ℚ) (h : vs ≠ []) :
    ∃ s : List ℚ, s.Perm vs ∧ s.Sorted (· ≤ ·) ∧
      parseResultFileCE stem (.withValues (.arr vs))
        = some ⟨benchName stem, s.getD (vs.length / 2) 0, meanQ vs, vs⟩
      ∧ (vs.length % 2 = 1 →
          parseResultFileCB stem (.withValues (.arr vs))
            = .ok (some ⟨benchName stem, s.getD (vs.length / 2) 0, meanQ vs,
                         if vs.length > 1 then varQ vs else 0, vs⟩)) := by
  have hE : vs.isEmpty = false := by simpa [List.isEmpty_iff] using h
  refine ⟨sortedQ vs, List.perm_insertionSort _ vs, List.sorted_insertionSort _ vs, ?_, ?_⟩
  · simp [parseResultFileCE, valuesObjFalsy, hE, medianLower]
  · intro hodd
    have hlen : (sortedQ vs).length = vs.length := List.length_insertionSort _ vs
    have hmed : medianInterp vs = (sortedQ vs).getD (vs.length / 2) 0 := by
      simp only [medianInterp]
      rw [hlen, if_pos hodd]
    simp [parseResultFileCB, hE, hmed]

/-- C1 witness: the spec's example `[3, 1, 2]` — both normalizers return the
lower-middle element `2` of the sorted array `[1, 2, 3]`. -/
theorem convert_flat_median_lower_middle_witness :
    ∃ s : List ℚ, s.Perm [3, 1, 2] ∧ s.Sorted (· ≤ ·) ∧
      parseResultFileCE "abies_04" (.withValues (.arr [3, 1, 2]))
        = some ⟨benchName "abies_04", s.getD ([3, 1, 2].length / 2) 0, meanQ [3, 1, 2], [3, 1, 2]⟩
      ∧ ([3, 1, 2].length % 2 = 1 →
          parseResultFileCB "abies_04" (.withValues (.arr [3, 1, 2]))
            = .ok (some ⟨benchName "abies_04", s.getD ([3, 1, 2].length / 2) 0, meanQ [3, 1, 2],
                         if [3, 1, 2].length > 1 then varQ [3, 1, 2] else 0, [3, 1, 2]⟩)) :=
  convert_flat_median_lower_middle "abies_04" [3, 1, 2] (by decide)

end Abies
